import Mathlib

/-!
Shallow embedding of the remote node state-check and convergence engine of
`cmd/puppeth/wizard_swarm.go` (the swarm wizard, `deploySwarm` and
`checkSwarmNode`), together with the wizard-side field merge.  Byte slices
are modelled as `String`, Go `int`/`int64` as `Int`, Go maps as association
lists whose lookup returns the Go zero value on a missing key.
-/

namespace Swarm

/-- ASCII whitespace, as trimmed by Go `bytes.TrimSpace` on the outputs the
checker handles (the Go function also trims other Unicode space classes,
which never occur in the command outputs modelled here). -/
def isSpaceChar (c : Char) : Bool :=
  c = ' ' || c = '\t' || c = '\n' || c = '\r'

/-- Model of Go `bytes.TrimSpace`: drop leading and trailing whitespace. -/
def trimSpace (s : String) : String :=
  String.mk (((s.toList.dropWhile isSpaceChar).reverse.dropWhile isSpaceChar).reverse)

/-- Model of Go `bytes.Trim(b, "\x22")`: drop leading and trailing
double-quote characters. -/
def trimQuotes (s : String) : String :=
  String.mk (((s.toList.dropWhile (· = '"')).reverse.dropWhile (· = '"')).reverse)

/-- Model of Go `strconv.Atoi` on in-range inputs: optional sign followed by
at least one decimal digit, `none` on anything else (Go additionally fails
on 64-bit overflow, which the modelled inputs never reach). -/
def goAtoi (s : String) : Option Int :=
  let readDigits : List Char → Option Int := fun ds =>
    if ds = [] || !ds.all Char.isDigit then none
    else some ((ds.foldl (fun a c => a * 10 + (c.toNat - 48)) 0 : Nat) : Int)
  match s.toList with
  | '-' :: rest => (readDigits rest).map (fun n => -n)
  | '+' :: rest => readDigits rest
  | chars => readDigits chars

/-- `totalPeers, _ := strconv.Atoi(...)`: the error is discarded, so a
failed parse yields Go's zero value 0. -/
def goAtoiOr0 (s : String) : Int :=
  (goAtoi s).getD 0

/-- Go map read with `string` values: a missing key yields the zero value
`""`.  Go maps have unique keys, modelled as first-match lookup. -/
def strLookup (m : List (String × String)) (k : String) : String :=
  (((m.find? (fun p => p.1 = k)).map (fun p => p.2)).getD "")

/-- Go map read with `int` values: a missing key yields the zero value 0. -/
def intLookup (m : List (String × Int)) (k : String) : Int :=
  (((m.find? (fun p => p.1 = k)).map (fun p => p.2)).getD 0)

/-- The `swarmInfos` struct of wizard_swarm.go: configuration snapshot of a
swarm node, also used as the merged desired configuration. -/
structure swarmInfos where
  genesis : String
  network : Int
  datadir : String
  peersTotal : Int
  port : Int
  bzzPort : Int
  enode : String
  swarmenode : String
  bzzAccount : String
  keyJSON : String
  keyPass : String
deriving DecidableEq, Repr

/-- The `{{if .SwarmBoot}}--bootnodes {{.SwarmBoot}}{{end}}` fragment of the
`swarmDockerfile` template: Go template `if` treats the empty string as
false, so an empty joined peer list produces no bootnodes entry. -/
def bootnodesEntry (swarmBoot : String) : String :=
  if swarmBoot = "" then "" else "--bootnodes " ++ swarmBoot

/-- The `{{if .BzzAccount}}--bzzaccount {{.BzzAccount}} {{end}}` fragment of
the `swarmDockerfile` template. -/
def bzzAccountEntry (bzzAccount : String) : String :=
  if bzzAccount = "" then "" else "--bzzaccount " ++ bzzAccount ++ " "

/-- Rendering of the `swarmDockerfile` template with the context map built in
`deploySwarm` (keys NetworkID, Port, Peers, bzzPort, SwarmBoot, Unlock,
BzzAccount; Unlock is never referenced by the template).  Apostrophes of the
source text are written as the escape \x27. -/
def renderSwarmDockerfile (networkID : Int) (bzzAccount : String)
    (port bzzPort peers : Int) (swarmBoot : String) : String :=
  "\nFROM ethereum/client-go:alltools-v1.8.3\n\nADD genesis.json /genesis.json\nADD bzzkey.json /bzzkey.json\nADD bzzpass /bzzpass\n\nRUN \\\n\techo \x27mkdir -p /root/.ethereum/keystore/ && cp /bzzkey.json /root/.ethereum/keystore/\x27 > geth.sh && \\\n\techo $\x27swarm --bzznetworkid "
    ++ toString networkID ++ " "
    ++ bzzAccountEntry bzzAccount
    ++ "--port " ++ toString port
    ++ " --bzzport " ++ toString bzzPort
    ++ " --maxpeers " ++ toString peers
    ++ " " ++ bootnodesEntry swarmBoot
    ++ " --password /bzzpass\x27 >> geth.sh\n\nENTRYPOINT [\"/bin/sh\", \"geth.sh\"]\n"

/-- Rendering of the `swarmComposefile` template with the context map built
in `deploySwarm`.  That map carries the keys Type, Datadir, Network, Port,
TotalPeers and BzzAccount but NOT bzzPort, so the template's
`{{.bzzPort}}` reference misses and Go text/template prints the literal
`<no value>` (TotalPeers and BzzAccount are present but never referenced). -/
def renderSwarmComposefile (typ network datadir : String) (port : Int) : String :=
  "\nversion: \x272\x27\nservices:\n  " ++ typ
    ++ ":\n    build: .\n    image: " ++ network ++ "/" ++ typ
    ++ "\n    ports:\n      - \"" ++ toString port ++ ":" ++ toString port
    ++ "\"\n      - \"" ++ toString port ++ ":" ++ toString port
    ++ "/udp\"\n    volumes:\n      - " ++ datadir
    ++ ":/root/.ethereum\n    environment:\n      - PORT=<no value>/tcp\n    logging:\n      driver: \"json-file\"\n      options:\n        max-size: \"1m\"\n        max-file: \"10\"\n    restart: always\n"

/-- The service kind chosen by `deploySwarm`: `swarmboot` when the merged
configuration carries no prior node identity (`swarmenode == ""`), else
`swarmnode`. -/
def deployKind (config : swarmInfos) : String :=
  if config.swarmenode = "" then "swarmboot" else "swarmnode"

/-- The Dockerfile content produced by `deploySwarm`: when the role is
bootstrap (`swarmenode == ""`) the supplied peer list is replaced by the
empty list before being comma-joined into the template context. -/
def deployDockerfileOf (swarmboot : List String) (config : swarmInfos) : String :=
  renderSwarmDockerfile config.network config.bzzAccount config.port
    config.bzzPort config.peersTotal
    (String.intercalate "," (if config.swarmenode = "" then [] else swarmboot))

/-- The docker-compose.yaml content produced by `deploySwarm`. -/
def deployComposefileOf (network : String) (config : swarmInfos) : String :=
  renderSwarmComposefile (deployKind config) network config.datadir config.port

/-- The file map uploaded by `deploySwarm`: Dockerfile, compose file and
genesis always; key and passphrase files only when key JSON is present.
`filepath.Join(workdir, name)` is `workdir ++ "/" ++ name` for the non-empty
decimal workdir names `deploySwarm` generates. -/
def deployFiles (network : String) (swarmboot : List String)
    (config : swarmInfos) (workdir : String) : List (String × String) :=
  [(workdir ++ "/Dockerfile", deployDockerfileOf swarmboot config),
   (workdir ++ "/docker-compose.yaml", deployComposefileOf network config),
   (workdir ++ "/genesis.json", config.genesis)]
    ++ (if config.keyJSON ≠ "" then
          [(workdir ++ "/bzzkey.json", config.keyJSON),
           (workdir ++ "/bzzpass", config.keyPass)]
        else [])

/-- The error kinds a status check can surface.  `notFound` is
`ErrServiceUnknown` (the spec's `NotFound`), `offline` is
`ErrServiceOffline`, `unreachable` is `ErrServiceUnreachable`. -/
inductive SwarmError where
  | notFound
  | offline
  | unreachable
deriving DecidableEq, Repr

/-- The container snapshot produced by the Container Inspector: run flag,
environment variables, port mapping (container port to bound host port) and
volume mapping (container path to host path). -/
structure ContainerInfos where
  running : Bool
  envvars : List (String × String)
  portmap : List (String × Int)
  volumes : List (String × String)
deriving DecidableEq, Repr

/-- The remote side as `checkSwarmNode` sees it: the server address, the
Container Inspector's verdict per container name, and the captured-output
`Run` of the ssh client per command.  `inspect` is modelled from the spec:
`inspectContainer` is not part of this repository's sources; the spec has
it signal `NotFound` when the probed container does not exist and
`Unreachable` on other execution failures, and otherwise yield the parsed
container snapshot. -/
structure CheckChannel where
  address : String
  inspect : String → Except SwarmError ContainerInfos
  run : String → Except Unit String

/-- The container name `checkSwarmNode` probes: suffix `bootswarm` for a
bootstrap check, `swarmnode` otherwise. -/
def checkContainerName (network : String) (boot : Bool) : String :=
  network ++ "_" ++ (if boot then "bootswarm" else "swarmnode") ++ "_1"

/-- The in-container admin command querying the node's self-reported id. -/
def nodeIdCommand (network : String) (boot : Bool) : String :=
  "docker exec " ++ checkContainerName network boot
    ++ " geth --exec admin.nodeInfo.id attach /root/.ethereum/bzzd.ipc"

/-- The in-container command reading back the genesis payload. -/
def genesisCommand (network : String) (boot : Bool) : String :=
  "docker exec " ++ checkContainerName network boot ++ " cat /genesis.json"

/-- The in-container command opportunistically reading the key JSON. -/
def keyJSONCommand (network : String) (boot : Bool) : String :=
  "docker exec " ++ checkContainerName network boot ++ " cat /bzzkey.json"

/-- The in-container command opportunistically reading the passphrase. -/
def keyPassCommand (network : String) (boot : Bool) : String :=
  "docker exec " ++ checkContainerName network boot ++ " cat /bzzpass"

/-- `checkSwarmNode` of wizard_swarm.go.  An inspector error is returned
unchanged; a non-running container yields `offline`; a failing node-id or
genesis read yields `unreachable`; failing key or passphrase reads are
tolerated and leave those fields empty.  The reachable port is
`infos.portmap[infos.envvars["PORT"]]` with Go zero-value misses, and the
`checkPort` probe only logs a warning, leaving the result unchanged, so it
is not modelled.  Fields the Go code never assigns keep their zero values
(`network`, `bzzPort`, `enode`). -/
def checkSwarmNode (ch : CheckChannel) (network : String) (boot : Bool) :
    Except SwarmError swarmInfos :=
  match ch.inspect (checkContainerName network boot) with
  | .error e => .error e
  | .ok infos =>
    if !infos.running then .error .offline
    else
      let totalPeers := goAtoiOr0 (strLookup infos.envvars "TOTAL_PEERS")
      match ch.run (nodeIdCommand network boot) with
      | .error _ => .error .unreachable
      | .ok idOut =>
        let id := trimQuotes (trimSpace idOut)
        match ch.run (genesisCommand network boot) with
        | .error _ => .error .unreachable
        | .ok genesisOut =>
          let genesis := trimSpace genesisOut
          let keyJSON :=
            match ch.run (keyJSONCommand network boot) with
            | .ok out => trimSpace out
            | .error _ => ""
          let keyPass :=
            match ch.run (keyPassCommand network boot) with
            | .ok out => trimSpace out
            | .error _ => ""
          let port := intLookup infos.portmap (strLookup infos.envvars "PORT")
          .ok { genesis := genesis
                network := 0
                datadir := strLookup infos.volumes "/root/.ethereum"
                peersTotal := totalPeers
                port := port
                bzzPort := 0
                enode := ""
                swarmenode := "enode://" ++ id ++ "@" ++ ch.address ++ ":" ++ toString port
                bzzAccount := strLookup infos.envvars "BZZ_NAME"
                keyJSON := keyJSON
                keyPass := keyPass }

/-- One operation issued over the remote command channel by `deploySwarm`. -/
inductive RemoteOp where
  | upload (files : List (String × String))
  | stream (cmd : String)
  | runCmd (cmd : String)
deriving DecidableEq, Repr

/-- The remote side as `deploySwarm` sees it: the outcome of the one upload
and of any streamed command (`none` is success). -/
structure DeployChannel where
  uploadOut : String
  uploadErr : Option String
  streamErr : String → Option String

/-- The build-and-up command streamed by `deploySwarm`: with `nocache` a
no-cache pull build followed by forced recreation, otherwise one combined
build-and-up command. -/
def buildCommand (network workdir : String) (nocache : Bool) : String :=
  if nocache then
    "cd " ++ workdir ++ " && docker-compose -p " ++ network
      ++ " build --pull --no-cache && docker-compose -p " ++ network
      ++ " up -d --force-recreate"
  else
    "cd " ++ workdir ++ " && docker-compose -p " ++ network
      ++ " up -d --build --force-recreate"

/-- `deploySwarm` of wizard_swarm.go, as the sequence of remote operations it
issues plus its `(out, err)` result.  The scratch directory name (`workdir`,
a random decimal in Go) is a parameter.  On upload failure the function
returns the upload's partial output and error at once, issuing nothing
further; otherwise it streams the build command and the deferred
`rm -rf workdir` cleanup runs after the stream, its own outcome discarded,
while the returned error is the stream's. -/
def deploySwarm (ch : DeployChannel) (network : String)
    (swarmboot : List String) (config : swarmInfos) (nocache : Bool)
    (workdir : String) : List RemoteOp × Option String × Option String :=
  let files := deployFiles network swarmboot config workdir
  match ch.uploadErr with
  | some e => ([RemoteOp.upload files], some ch.uploadOut, some e)
  | none =>
    let cmd := buildCommand network workdir nocache
    ([RemoteOp.upload files, RemoteOp.stream cmd,
      RemoteOp.runCmd ("rm -rf " ++ workdir)],
     none, ch.streamErr cmd)

/-- Modelled from the spec: the wizard's `readDefaultString` prompt helper
(defined outside these sources) offers a default and returns the operator's
input, or the default when the operator just presses enter. -/
def readDefaultString (dflt input : String) : String :=
  if input = "" then dflt else input

/-- Modelled from the spec: the wizard's `readDefaultInt` prompt helper
offers a default and returns the operator's integer input, or the default
when the operator enters nothing. -/
def readDefaultInt (dflt : Int) (input : Option Int) : Int :=
  input.getD dflt

/-- The operator's answers during one pass of `wizard.deploySwarm`.  An
empty string / `none` means the operator accepted the offered default. -/
structure WizardInput where
  datadir : String
  port : Option Int
  bzzPort : Option Int
  peersTotal : Option Int
  keyJSON : String
  keyPass : String
  bzzAccount : String
  bzzAccountDefaulted : Option String
deriving DecidableEq, Repr

/-- The field merge of `wizard.deploySwarm` (lines 55-110): starting from
the snapshot returned by a successful `checkSwarmNode`, the genesis payload
and network id are overwritten from the wizard's configured genesis before
the first prompt; datadir, port, bzzPort and peersTotal are prompted with
the snapshot value as default; key JSON and passphrase are collected only
when the snapshot has no key JSON (when present they are reused without a
prompt; the decrypt validation aborts the wizard rather than altering
fields, so it is outside the merge); the bzz account is prompted fresh when
absent — the accepted address already printed via `.Hex()`, modelled as the
input string — and otherwise offered as a default that the program passes
through the external go-ethereum round-trip
`common.HexToAddress(infos.bzzAccount).Hex()` (line 109), which parses the
hex string to a 20-byte address and re-prints it 0x-prefixed with EIP-55
checksum casing.  That collaborator lives outside these sources, so the
merge is parameterized by it (`hexAddrHex`) rather than re-implementing its
Keccak-based checksum, and every theorem below holds for an arbitrary such
function. -/
def wizardMerge (hexAddrHex : String → String) (genesisBytes : String)
    (chainId : Int) (infos : swarmInfos) (inp : WizardInput) : swarmInfos :=
  let afterGenesis : swarmInfos :=
    { infos with genesis := genesisBytes, network := chainId }
  let afterData : swarmInfos :=
    { afterGenesis with
        datadir := if afterGenesis.datadir = "" then inp.datadir
                   else readDefaultString afterGenesis.datadir inp.datadir }
  let afterPort : swarmInfos :=
    { afterData with port := readDefaultInt afterData.port inp.port }
  let afterBzzPort : swarmInfos :=
    { afterPort with bzzPort := readDefaultInt afterPort.bzzPort inp.bzzPort }
  let afterPeers : swarmInfos :=
    { afterBzzPort with
        peersTotal := readDefaultInt afterBzzPort.peersTotal inp.peersTotal }
  let afterKey : swarmInfos :=
    if afterPeers.keyJSON = "" then
      { afterPeers with keyJSON := inp.keyJSON, keyPass := inp.keyPass }
    else afterPeers
  { afterKey with
      bzzAccount := if afterKey.bzzAccount = "" then inp.bzzAccount
                    else (inp.bzzAccountDefaulted.getD
                      (hexAddrHex afterKey.bzzAccount)) }

/-- Substring occurrence, on the underlying character lists. -/
def occursIn (pat s : String) : Prop :=
  pat.toList <:+: s.toList

instance (pat s : String) : Decidable (occursIn pat s) := by
  unfold occursIn
  exact List.decidableInfix pat.toList s.toList

/-- Modelled from the spec: docker-compose names the first container of
service `service` under project `project` as `project_service_1` — the very
convention `checkSwarmNode`'s probe string encodes. -/
def composeContainerName (project service : String) : String :=
  project ++ "_" ++ service ++ "_1"

/-! Concrete sample configurations and channels used to evaluate the
definitions at specific inputs. -/

/-- A merged configuration with no prior node identity: bootstrap role. -/
def sampleBootConfig : swarmInfos :=
  { genesis := "\x7b\x7d", network := 5, datadir := "/data", peersTotal := 50
    port := 30399, bzzPort := 8500, enode := "", swarmenode := ""
    bzzAccount := "", keyJSON := "", keyPass := "" }

/-- A merged configuration with a prior node identity: peer role, with
credential material present. -/
def samplePeerConfig : swarmInfos :=
  { genesis := "\x7b\x7d", network := 5, datadir := "/data", peersTotal := 50
    port := 30399, bzzPort := 8500, enode := ""
    swarmenode := "enode://aa@1.2.3.4:30399"
    bzzAccount := "0x1234", keyJSON := "keyjson", keyPass := "secret" }

/-- A channel whose inspector reports the probed container as missing. -/
def chNotFound : CheckChannel :=
  { address := "192.168.0.7"
    inspect := fun _ => .error .notFound
    run := fun _ => .ok "" }

/-- A running container with env exactly TOTAL_PEERS=50 and port mapping
exactly 30303 to 31000, behind a channel whose commands all succeed. -/
def chPeers50 : CheckChannel :=
  { address := "192.168.0.7"
    inspect := fun _ => .ok { running := true
                              envvars := [("TOTAL_PEERS", "50")]
                              portmap := [("30303", 31000)]
                              volumes := [] }
    run := fun _ => .ok "" }

/-- Like `chPeers50`, with the PORT environment variable also set. -/
def chPeers50Port : CheckChannel :=
  { address := "192.168.0.7"
    inspect := fun _ => .ok { running := true
                              envvars := [("TOTAL_PEERS", "50"), ("PORT", "30303")]
                              portmap := [("30303", 31000)]
                              volumes := [] }
    run := fun _ => .ok "" }

/-- A running container, empty otherwise. -/
def runningInfos : ContainerInfos :=
  { running := true, envvars := [], portmap := [], volumes := [] }

/-- A channel with a running container whose node-identity query fails and
whose every other command succeeds. -/
def chIdentityFails : CheckChannel :=
  { address := "192.168.0.7"
    inspect := fun _ => .ok runningInfos
    run := fun cmd => if cmd = nodeIdCommand "foo" false then .error () else .ok "" }

/-- A deployment channel whose upload succeeds and whose streamed build
command fails. -/
def chStreamFail : DeployChannel :=
  { uploadOut := "", uploadErr := none, streamErr := fun _ => some "build failed" }

/-- A deployment channel whose upload fails with partial output. -/
def chUploadFail : DeployChannel :=
  { uploadOut := "partial output", uploadErr := some "upload refused"
    streamErr := fun _ => none }

/-- A fully-populated snapshot, as returned by a successful status check. -/
def snapFull : swarmInfos :=
  { genesis := "old genesis", network := 9, datadir := "/old", peersTotal := 10
    port := 1, bzzPort := 2, enode := "", swarmenode := "enode://old"
    bzzAccount := "0xAbC", keyJSON := "oldkey", keyPass := "oldpass" }

/-- A concrete address canonicalization used to instantiate the merge
theorems: lower-casing, a deliberately non-identity stand-in for the
checksummed re-printing (the theorems quantify over every such function). -/
def sampleAddrHex (s : String) : String :=
  s.map Char.toLower

/-- Operator answers accepting every offered default. -/
def inpDefaults : WizardInput :=
  { datadir := "", port := none, bzzPort := none, peersTotal := none
    keyJSON := "", keyPass := "", bzzAccount := "", bzzAccountDefaulted := none }

end Swarm

deriving instance DecidableEq for Except

open Swarm

/-- Claim C1, counterexample: on a channel whose inspector reports the
probed container as missing (`NotFound`), `checkSwarmNode` does not return
the `ServiceOffline` error kind. -/
theorem checkSwarmNode_notFound_not_offline :
    checkSwarmNode chNotFound "foo" true ≠ Except.error SwarmError.offline := by
  decide

/-- Claim C1, amended: when the Container Inspector reports the probed
container as missing, `checkSwarmNode` propagates that `NotFound` error
unchanged; `ServiceOffline` is reserved for a container that exists but is
not running. -/
theorem checkSwarmNode_propagates_notFound (ch : CheckChannel)
    (network : String) (boot : Bool)
    (h : ch.inspect (checkContainerName network boot) =
      Except.error SwarmError.notFound) :
    checkSwarmNode ch network boot = Except.error SwarmError.notFound := by
  unfold checkSwarmNode
  rw [h]

/-- Claim C1, witness for the amended theorem at a concrete channel. -/
theorem checkSwarmNode_propagates_notFound_witness :
    checkSwarmNode chNotFound "foo" true = Except.error SwarmError.notFound :=
  checkSwarmNode_propagates_notFound chNotFound "foo" true rfl

/-- Claim C2: the container name `checkSwarmNode` probes for a bootstrap
node (`<network>_bootswarm_1`) is NOT the container name a bootstrap
deployment creates (compose service `swarmboot` under project `<network>`,
container `<network>_swarmboot_1`), while for the peer role the two names
do agree — the bootstrap status check can never find the deployed
container. -/
theorem bootstrap_container_name_mismatch :
    checkContainerName "foo" true ≠
        composeContainerName "foo" (deployKind sampleBootConfig) ∧
      checkContainerName "foo" false =
        composeContainerName "foo" (deployKind samplePeerConfig) := by
  decide

/-- Claim C3, counterexample: for a fully-populated snapshot, the merge of
`wizard.deploySwarm` replaces the snapshot's genesis payload and network id
with the wizard's configured values even though the operator (here
accepting every default) was never consulted about them. -/
theorem wizardMerge_overwrites_genesis :
    (wizardMerge sampleAddrHex "new genesis" 7 snapFull inpDefaults).genesis ≠
        snapFull.genesis ∧
      (wizardMerge sampleAddrHex "new genesis" 7 snapFull inpDefaults).network ≠
        snapFull.network := by
  decide

/-- Claim C3, amended: every snapshot field except the genesis payload and
the network id is offered back to the operator as a default — when the
operator accepts every default, datadir, ports, peer count and key material
are preserved, and the account becomes the canonicalized
`HexToAddress(..).Hex()` form of the snapshot's account (here an arbitrary
canonicalizer `hx`) — while genesis and network id are overwritten from the
wizard's configured genesis before the operator is consulted. -/
theorem wizardMerge_offers_defaults (hx : String → String) (g : String)
    (c : Int) (infos : swarmInfos) (inp : WizardInput)
    (hd : infos.datadir ≠ "") (hdi : inp.datadir = "")
    (hp : inp.port = none) (hb : inp.bzzPort = none)
    (hpe : inp.peersTotal = none) (hk : infos.keyJSON ≠ "")
    (ha : infos.bzzAccount ≠ "") (hai : inp.bzzAccountDefaulted = none) :
    (wizardMerge hx g c infos inp).datadir = infos.datadir ∧
      (wizardMerge hx g c infos inp).port = infos.port ∧
      (wizardMerge hx g c infos inp).bzzPort = infos.bzzPort ∧
      (wizardMerge hx g c infos inp).peersTotal = infos.peersTotal ∧
      (wizardMerge hx g c infos inp).keyJSON = infos.keyJSON ∧
      (wizardMerge hx g c infos inp).keyPass = infos.keyPass ∧
      (wizardMerge hx g c infos inp).bzzAccount = hx infos.bzzAccount ∧
      (wizardMerge hx g c infos inp).genesis = g ∧
      (wizardMerge hx g c infos inp).network = c := by
  simp [wizardMerge, readDefaultString, readDefaultInt, hd, hdi, hp, hb, hpe,
    hk, ha, hai]

/-- Claim C3, witness for the amended theorem at a concrete snapshot with
all-defaults operator input and a non-identity canonicalizer: the account
comes out canonicalized, every other non-genesis field verbatim. -/
theorem wizardMerge_offers_defaults_witness :
    (wizardMerge sampleAddrHex "new genesis" 7 snapFull inpDefaults).datadir =
        snapFull.datadir ∧
      (wizardMerge sampleAddrHex "new genesis" 7 snapFull inpDefaults).port =
        snapFull.port ∧
      (wizardMerge sampleAddrHex "new genesis" 7 snapFull inpDefaults).bzzPort =
        snapFull.bzzPort ∧
      (wizardMerge sampleAddrHex "new genesis" 7 snapFull
          inpDefaults).peersTotal = snapFull.peersTotal ∧
      (wizardMerge sampleAddrHex "new genesis" 7 snapFull inpDefaults).keyJSON =
        snapFull.keyJSON ∧
      (wizardMerge sampleAddrHex "new genesis" 7 snapFull inpDefaults).keyPass =
        snapFull.keyPass ∧
      (wizardMerge sampleAddrHex "new genesis" 7 snapFull
          inpDefaults).bzzAccount = sampleAddrHex snapFull.bzzAccount ∧
      (wizardMerge sampleAddrHex "new genesis" 7 snapFull inpDefaults).genesis =
        "new genesis" ∧
      (wizardMerge sampleAddrHex "new genesis" 7 snapFull inpDefaults).network =
        7 :=
  wizardMerge_offers_defaults sampleAddrHex "new genesis" 7 snapFull
    inpDefaults (by decide) rfl rfl rfl rfl (by decide) (by decide) rfl

set_option maxRecDepth 20000 in
/-- Claim C4, counterexample: for a merged configuration with secondary
(bzz) port 8500, the rendered composition descriptor placed in the artifact
map nowhere mentions 8500 — the secondary port is not published at all. -/
theorem compose_missing_bzz_port :
    ¬ occursIn "8500"
      (strLookup (deployFiles "foo" [] samplePeerConfig "42")
        "42/docker-compose.yaml") := by
  decide

/-- Claim C4, amended: the rendered composition descriptor declares one
service named after the role kind and publishes the primary listen port
over both TCP and UDP; the secondary (bzz) port is not published — the
descriptor does not depend on it, and its only environment reference
renders as the literal `<no value>` because the template context omits the
`bzzPort` key. -/
theorem compose_structure (network : String) (cfg : swarmInfos) (b : Int) :
    deployComposefileOf network cfg =
        "\nversion: \x272\x27\nservices:\n  " ++ deployKind cfg
          ++ ":\n    build: .\n    image: " ++ network ++ "/" ++ deployKind cfg
          ++ "\n    ports:\n      - \"" ++ toString cfg.port ++ ":"
          ++ toString cfg.port ++ "\"\n      - \"" ++ toString cfg.port ++ ":"
          ++ toString cfg.port ++ "/udp\"\n    volumes:\n      - " ++ cfg.datadir
          ++ ":/root/.ethereum\n    environment:\n      - PORT=<no value>/tcp\n    logging:\n      driver: \"json-file\"\n      options:\n        max-size: \"1m\"\n        max-file: \"10\"\n    restart: always\n" ∧
      deployComposefileOf network { cfg with bzzPort := b } =
        deployComposefileOf network cfg :=
  ⟨rfl, rfl⟩

/-- Claim C5: the rendered build recipe and composition descriptor are
identical for any two passphrase values — the passphrase reaches only the
separate `bzzpass` artifact, never the templates. -/
theorem passphrase_noninterference (network : String) (sb : List String)
    (cfg : swarmInfos) (p1 p2 : String) :
    deployDockerfileOf sb { cfg with keyPass := p1 } =
        deployDockerfileOf sb { cfg with keyPass := p2 } ∧
      deployComposefileOf network { cfg with keyPass := p1 } =
        deployComposefileOf network { cfg with keyPass := p2 } :=
  ⟨rfl, rfl⟩

/-- Claim C6: when the upload succeeds and the streamed build command
fails, the scratch-directory removal command is still issued and the
returned error is the build-stream failure; when the upload fails,
`deploySwarm` returns only the channel's partial output and error, issuing
no cleanup or stream command. -/
theorem deploySwarm_cleanup_and_upload_failure (ch : DeployChannel)
    (network : String) (sb : List String) (cfg : swarmInfos) (nocache : Bool)
    (wd : String) :
    (∀ e, ch.uploadErr = none →
      ch.streamErr (buildCommand network wd nocache) = some e →
        RemoteOp.runCmd ("rm -rf " ++ wd) ∈
            (deploySwarm ch network sb cfg nocache wd).1 ∧
          (deploySwarm ch network sb cfg nocache wd).2.2 = some e) ∧
      (∀ e, ch.uploadErr = some e →
        deploySwarm ch network sb cfg nocache wd =
          ([RemoteOp.upload (deployFiles network sb cfg wd)],
            some ch.uploadOut, some e)) := by
  constructor
  · intro e h1 h2
    simp [deploySwarm, h1, h2]
  · intro e h
    simp [deploySwarm, h]

/-- Claim C6, witness: a concrete build-stream failure still issues the
cleanup command and surfaces the build error, and a concrete upload failure
returns at once with the partial output. -/
theorem deploySwarm_cleanup_witness :
    (RemoteOp.runCmd ("rm -rf " ++ "42") ∈
        (deploySwarm chStreamFail "net" [] sampleBootConfig false "42").1 ∧
      (deploySwarm chStreamFail "net" [] sampleBootConfig false "42").2.2 =
        some "build failed") ∧
      deploySwarm chUploadFail "net" [] sampleBootConfig false "42" =
        ([RemoteOp.upload (deployFiles "net" [] sampleBootConfig "42")],
          some "partial output", some "upload refused") :=
  ⟨(deploySwarm_cleanup_and_upload_failure chStreamFail "net" []
      sampleBootConfig false "42").1 "build failed" rfl rfl,
    (deploySwarm_cleanup_and_upload_failure chUploadFail "net" []
      sampleBootConfig false "42").2 "upload refused" rfl⟩

/-- Claim C7: on the claim's exact input — env `TOTAL_PEERS=50` only, port
mapping 30303 to 31000 — the assembled snapshot does NOT have (peer count,
port) = (50, 31000): the `PORT` environment variable is absent, so the port
lookup misses and yields 0. -/
theorem checkSwarmNode_port_counterexample :
    ((checkSwarmNode chPeers50 "foo" true).toOption.map
      (fun s => (s.peersTotal, s.port))) ≠ some (50, 31000) := by
  decide

/-- Claim C7, amended: with env `TOTAL_PEERS=50` and port mapping 30303 to
31000 the snapshot has peer count 50 but reachable port 0; the port becomes
31000 only when the env additionally carries `PORT=30303` for the port-map
lookup to follow. -/
theorem checkSwarmNode_peers_and_port :
    ((checkSwarmNode chPeers50 "foo" true).toOption.map
        (fun s => (s.peersTotal, s.port))) = some (50, 0) ∧
      ((checkSwarmNode chPeers50Port "foo" true).toOption.map
        (fun s => (s.peersTotal, s.port))) = some (50, 31000) := by
  decide

/-- Claim C8: for a merged configuration with no prior node identity
(bootstrap role), the supplied bootstrap-peer list is discarded — any two
lists render the same recipe — and the recipe equals the rendering with an
empty joined peer list, whose bootnodes entry is the empty string. -/
theorem bootstrap_discards_bootnodes (sb sb' : List String)
    (cfg : swarmInfos) (h : cfg.swarmenode = "") :
    deployDockerfileOf sb cfg = deployDockerfileOf sb' cfg ∧
      deployDockerfileOf sb cfg =
        renderSwarmDockerfile cfg.network cfg.bzzAccount cfg.port cfg.bzzPort
          cfg.peersTotal "" ∧
      bootnodesEntry "" = "" := by
  have hemp : String.intercalate "," ([] : List String) = "" := rfl
  refine ⟨?_, ?_, rfl⟩ <;> simp [deployDockerfileOf, h, hemp]

/-- Claim C8, witness at a concrete bootstrap configuration and peer
lists. -/
theorem bootstrap_discards_bootnodes_witness :
    deployDockerfileOf ["enode://a"] sampleBootConfig =
        deployDockerfileOf [] sampleBootConfig ∧
      deployDockerfileOf ["enode://a"] sampleBootConfig =
        renderSwarmDockerfile sampleBootConfig.network
          sampleBootConfig.bzzAccount sampleBootConfig.port
          sampleBootConfig.bzzPort sampleBootConfig.peersTotal "" ∧
      bootnodesEntry "" = "" :=
  bootstrap_discards_bootnodes ["enode://a"] [] sampleBootConfig rfl

/-- Claim C9: for a merged configuration with a prior node identity (peer
role) and a bootstrap-peer list whose comma-join is non-empty, the rendered
recipe embeds exactly `--bootnodes` followed by the comma-join of the list
in its original order. -/
theorem peer_bootnodes_join (sb : List String) (cfg : swarmInfos)
    (h : cfg.swarmenode ≠ "") (hj : String.intercalate "," sb ≠ "") :
    deployDockerfileOf sb cfg =
        renderSwarmDockerfile cfg.network cfg.bzzAccount cfg.port cfg.bzzPort
          cfg.peersTotal (String.intercalate "," sb) ∧
      bootnodesEntry (String.intercalate "," sb) =
        "--bootnodes " ++ String.intercalate "," sb := by
  constructor
  · simp [deployDockerfileOf, h]
  · simp [bootnodesEntry, hj]

/-- Claim C9, witness at a concrete peer configuration and two-element
peer list. -/
theorem peer_bootnodes_join_witness :
    deployDockerfileOf ["enode://a", "enode://b"] samplePeerConfig =
        renderSwarmDockerfile samplePeerConfig.network
          samplePeerConfig.bzzAccount samplePeerConfig.port
          samplePeerConfig.bzzPort samplePeerConfig.peersTotal
          (String.intercalate "," ["enode://a", "enode://b"]) ∧
      bootnodesEntry (String.intercalate "," ["enode://a", "enode://b"]) =
        "--bootnodes " ++ String.intercalate "," ["enode://a", "enode://b"] :=
  peer_bootnodes_join ["enode://a", "enode://b"] samplePeerConfig
    (by decide) (by decide)

/-- Claim C10: for a running container whose node-identity query fails, the
status check returns the `Unreachable` error kind — and therefore no
snapshot at all, partially populated or otherwise. -/
theorem checkSwarmNode_identity_failure_unreachable (ch : CheckChannel)
    (network : String) (boot : Bool) (infos : ContainerInfos)
    (hI : ch.inspect (checkContainerName network boot) = Except.ok infos)
    (hR : infos.running = true)
    (hQ : ch.run (nodeIdCommand network boot) = Except.error ()) :
    checkSwarmNode ch network boot = Except.error SwarmError.unreachable := by
  unfold checkSwarmNode
  rw [hI]
  simp [hR, hQ]

/-- Claim C10, witness at a concrete channel whose identity query fails. -/
theorem checkSwarmNode_identity_failure_witness :
    checkSwarmNode chIdentityFails "foo" false =
      Except.error SwarmError.unreachable :=
  checkSwarmNode_identity_failure_unreachable chIdentityFails "foo" false
    runningInfos rfl rfl (by decide)
